import Mathlib

set_option maxRecDepth 10000

/-!
Shallow embedding of `peffomance/NetworkFinder.py` (class `NetworkFinder`).

Modelling choices, stated once:
* Python exceptions are modelled with `Except String`: `Except.error` is an
  uncaught exception, `Except.ok` a normal return.  `None` is `Option.none`.
* `ipaddress.IPv4Address(str)` parsing (CPython) is embedded character by
  character: split on the dot, exactly four octets, each octet made of one to
  three ASCII decimal digits, value at most 255, no leading zero unless the
  octet is exactly "0"; a slash anywhere or an empty string is rejected.  All
  parse failures surface as the single `ValueError` that `ip_to_int` re-raises
  with message "Invalid IP address: ...", so the individual inner messages are
  abbreviated here.
* The DuckDB view `network_ranges` is the list of parsed CSV rows; the column
  `range_size` is the derived `max_ip - min_ip`.  `HUGEINT` is modelled as
  unbounded `Int` (no claim exercises 128-bit overflow).
* The SQL query `SELECT ... WHERE min_ip <= x AND x <= max_ip ORDER BY
  range_size LIMIT 1` fixes only the sort key.  `orderBySizeHead` is the
  deterministic reading that keeps the first row (in dataset order) among the
  rows of minimal `range_size` (a stable sort); `admissibleResult` is the
  relational reading: any containing row of minimal `range_size` is an
  admissible output, since the query names no secondary sort key.
* `functools.lru_cache(maxsize=10000)` is modelled by `find_network_cached`
  over an explicit most-recently-used-first association list.
-/

/-- ASCII decimal digit test.  Mirrors `octet_str.isascii() and
octet_str.isdigit()` in CPython, whose conjunction accepts exactly the
characters 0 through 9. -/
def isDigitChar (c : Char) : Bool :=
  decide (48 ≤ c.toNat) && decide (c.toNat ≤ 57)

/-- Splitting of a character list at every occurrence of `sep`, matching
Python `str.split(sep)`: the empty list yields one empty part, and a
separator at either end yields an empty part there. -/
def splitOnChar (sep : Char) : List Char → List (List Char)
  | [] => [[]]
  | c :: cs =>
    if c = sep then [] :: splitOnChar sep cs
    else
      match splitOnChar sep cs with
      | [] => [[c]]
      | p :: ps => (c :: p) :: ps

/-- Interleaving of `sep` between parts, the inverse of `splitOnChar`
(Python `sep.join(parts)`). -/
def joinChar (sep : Char) : List (List Char) → List Char
  | [] => []
  | [p] => p
  | p :: q :: ps => p ++ sep :: joinChar sep (q :: ps)

/-- Decimal value of a digit string, as computed by Python `int(s, 10)` on an
all-digit string. -/
def digitsVal (l : List Char) : Nat :=
  l.foldl (fun a c => 10 * a + (c.toNat - 48)) 0

/-- Embeds CPython `ipaddress._parse_octet`: a dotted-quad component must be
one to three ASCII decimal digits, at most 255, with no leading zero unless it
is exactly "0". -/
def parseOctet (l : List Char) : Except String Nat :=
  if l.isEmpty then Except.error "Empty octet not permitted"
  else if !(l.all isDigitChar) then Except.error "Only decimal digits permitted"
  else if l.length > 3 then Except.error "At most 3 characters permitted"
  else if l.head? == some '0' && l.length != 1 then
    Except.error "Leading zeros are not permitted"
  else if digitsVal l > 255 then Except.error "Octet above 255 not permitted"
  else Except.ok (digitsVal l)

/-- Embeds `NetworkFinder.ip_to_int` (NetworkFinder.py lines 42-58):
`int(ipaddress.IPv4Address(ip_address))`, with every parse failure re-raised
as `ValueError("Invalid IP address: " + ip_address)`. -/
def ip_to_int (ip_address : String) : Except String Nat :=
  if ip_address.data.contains '/' then
    Except.error ("Invalid IP address: " ++ ip_address)
  else if ip_address.data.isEmpty then
    Except.error ("Invalid IP address: " ++ ip_address)
  else
    match splitOnChar '.' ip_address.data with
    | [o1, o2, o3, o4] =>
      match parseOctet o1, parseOctet o2, parseOctet o3, parseOctet o4 with
      | Except.ok a, Except.ok b, Except.ok c, Except.ok d =>
        Except.ok (a * 16777216 + b * 65536 + c * 256 + d)
      | _, _, _, _ => Except.error ("Invalid IP address: " ++ ip_address)
    | _ => Except.error ("Invalid IP address: " ++ ip_address)

/-- Fuel-driven worker for `natDigits`: structurally recursive on the fuel so
that the kernel can evaluate it on concrete inputs.  Any fuel above the input
gives the same answer (`natDigitsAux_congr`). -/
def natDigitsAux : Nat → Nat → List Char
  | 0, _ => []
  | fuel + 1, n =>
    if n < 10 then [Char.ofNat (48 + n)]
    else natDigitsAux fuel (n / 10) ++ [Char.ofNat (48 + n % 10)]

/-- Decimal digit characters of a natural number, most significant first,
no leading zeros (Python `str(n)` for a nonnegative int). -/
def natDigits (n : Nat) : List Char := natDigitsAux (n + 1) n

/-- Decimal rendering of a natural number as a string. -/
def natToDec (n : Nat) : String := String.mk (natDigits n)

/-- Python `str()` on an int that may be negative (the HUGEINT columns). -/
def intToDecStr (i : Int) : String :=
  if i < 0 then "-" ++ natToDec (-i).toNat else natToDec i.toNat

/-- Modelled from the spec: the repository has no integer-to-dotted-quad
conversion under src/ (`ip_to_int` has no inverse there); the round-trip
property of spec section 8 speaks of "converting to integer and back to
dotted-quad".  This is the standard canonical dotted-quad rendering: the four
bytes of the 32-bit value, most significant first, each rendered in decimal
without leading zeros, joined by dots. -/
def int_to_ip (n : Nat) : String :=
  String.mk (joinChar '.'
    [natDigits (n / 16777216 % 256), natDigits (n / 65536 % 256),
     natDigits (n / 256 % 256), natDigits (n % 256)])

/-- One row of the DuckDB view `network_ranges` (NetworkFinder.py lines
31-35): the six CSV columns.  The derived column `range_size` is
`rangeSize`. -/
structure NetworkRange where
  network : String
  min_ip : Int
  max_ip : Int
  asn : String
  organization : String
  country : String
deriving DecidableEq

/-- Derived column `max_ip - min_ip AS range_size` of the view. -/
def rangeSize (r : NetworkRange) : Int := r.max_ip - r.min_ip

/-- SQL predicate `min_ip <= x AND x <= max_ip` for the queried address. -/
def containsIp (r : NetworkRange) (x : Nat) : Bool :=
  decide (r.min_ip ≤ (x : Int)) && decide ((x : Int) ≤ r.max_ip)

/-- Rows of the view satisfying the WHERE clause, in dataset order. -/
def containing (rows : List NetworkRange) (x : Nat) : List NetworkRange :=
  rows.filter (fun r => containsIp r x)

/-- Deterministic reading of `ORDER BY range_size LIMIT 1`: the first row, in
dataset order, among the rows of minimal `range_size` (a stable sort followed
by LIMIT 1).  `none` when the filtered list is empty (`fetchone` gives no
row). -/
def orderBySizeHead : List NetworkRange → Option NetworkRange
  | [] => none
  | r :: rs =>
    match orderBySizeHead rs with
    | none => some r
    | some m => if rangeSize r ≤ rangeSize m then some r else some m

/-- Relational reading of `ORDER BY range_size LIMIT 1`: the query names only
the sort key `range_size`, so any containing row of minimal `range_size` is an
admissible output of `fetchone`. -/
abbrev admissibleResult (rows : List NetworkRange) (x : Nat) (r : NetworkRange) : Prop :=
  r ∈ containing rows x ∧ ∀ m ∈ containing rows x, rangeSize r ≤ rangeSize m

/-- The dictionary built by `NetworkFinder.find_network` (lines 82-99): six
string values (the two bounds go through Python `str()`). -/
structure ResultRecord where
  network : String
  min_ip : String
  max_ip : String
  asn : String
  organization : String
  country : String
deriving DecidableEq

/-- The dictionary of lines 92-99, built from a matched row: fields copied
through, bounds rendered with `str()`. -/
def toRecord (r : NetworkRange) : ResultRecord :=
  { network := r.network
    min_ip := intToDecStr r.min_ip
    max_ip := intToDecStr r.max_ip
    asn := r.asn
    organization := r.organization
    country := r.country }

/-- The default dictionary of lines 82-89, returned when the query matches no
row: the input string as `network`, the queried integer rendered with `str()`
as both bounds, and fixed placeholder metadata. -/
def sentinelRecord (ip_address : String) (ip_int : Nat) : ResultRecord :=
  { network := ip_address
    min_ip := natToDec ip_int
    max_ip := natToDec ip_int
    asn := "00000000"
    organization := "unknown"
    country := "XX" }

/-- Embeds the body of `NetworkFinder.find_network` (lines 62-101), without
the `lru_cache` wrapper (modelled separately by `find_network_cached`): a
`ValueError` from `ip_to_int` is caught and `None` returned; otherwise the
query result, or the sentinel dictionary when no row matches.  `Except.error`
would model an uncaught exception; this function never produces one. -/
def find_network (rows : List NetworkRange) (ip_address : String) :
    Except String (Option ResultRecord) :=
  match ip_to_int ip_address with
  | Except.error _ => Except.ok none
  | Except.ok ip_int =>
    match orderBySizeHead (containing rows ip_int) with
    | some r => Except.ok (some (toRecord r))
    | none => Except.ok (some (sentinelRecord ip_address ip_int))

/-- Embeds `NetworkFinder.find_network_info` (lines 103-124): formats the
lookup result over five lines, or returns `None` when `find_network` returned
`None` (the dictionary is never empty, so Python truthiness of a returned
dictionary is always true). -/
def find_network_info (rows : List NetworkRange) (ip_address : String) :
    Except String (Option String) :=
  match find_network rows ip_address with
  | Except.error e => Except.error e
  | Except.ok none => Except.ok none
  | Except.ok (some result) =>
    Except.ok (some ("IP: " ++ ip_address ++ "\n" ++
      "Network: " ++ result.network ++ "\n" ++
      "ASN: " ++ result.asn ++ "\n" ++
      "Organization: " ++ result.organization ++ "\n" ++
      "Country: " ++ result.country))

/-- Embeds `NetworkFinder.__init__` (lines 17-40).  The filesystem is
modelled as the list of existing paths; the rows the engine would parse out of
the CSV file are a parameter (`read_csv_auto` is external).  A missing file
raises `FileNotFoundError` before the view is created. -/
def networkFinderInit (existingPaths : List String) (csv_file_path : String)
    (csvRows : List NetworkRange) : Except String (List NetworkRange) :=
  if csv_file_path ∈ existingPaths then Except.ok csvRows
  else Except.error ("CSV file not found: " ++ csv_file_path)

/-- Return type of a cached `find_network` call. -/
abbrev FindResult := Except String (Option ResultRecord)

/-- State of `functools.lru_cache(maxsize=10000)` on `find_network`:
an association list of cached calls, most recently used first, holding at
most `maxsize` entries. -/
structure LruCache where
  maxsize : Nat
  entries : List (String × FindResult)

/-- Every cached value is what `find_network` returns for its key: the
invariant the LRU wrapper maintains for a fixed loaded dataset. -/
abbrev cacheConsistent (rows : List NetworkRange) (cache : LruCache) : Prop :=
  ∀ e ∈ cache.entries, e.2 = find_network rows e.1

/-- Embeds the `lru_cache` wrapper around `find_network`: a hit returns the
stored value and moves the key to most-recent; a miss computes the value,
stores it in front, and drops the least recent entry beyond `maxsize`. -/
def find_network_cached (rows : List NetworkRange) (cache : LruCache)
    (ip_address : String) : FindResult × LruCache :=
  match cache.entries.lookup ip_address with
  | some v =>
    (v, { cache with
          entries := (ip_address, v) :: cache.entries.filter (fun e => e.1 != ip_address) })
  | none =>
    (find_network rows ip_address,
     { cache with entries := ((ip_address, find_network rows ip_address) :: cache.entries).take cache.maxsize })

/-- Strict narrowest-match condition: `r` is a containing range and every
other containing range is strictly wider. -/
abbrev strictlyNarrowest (rows : List NetworkRange) (x : Nat) (r : NetworkRange) : Prop :=
  ∀ r2 ∈ containing rows x, r2 ≠ r → rangeSize r < rangeSize r2

/-- Demo range of `range_size` 65536 containing 1.0.0.1 (nested-allocation
example of the spec). -/
def rowC2big : NetworkRange :=
  { network := "1.0.0.0/16"
    min_ip := 16777216
    max_ip := 16842752
    asn := "AS2"
    organization := "Big"
    country := "BB" }

/-- Demo range of `range_size` 256 containing 1.0.0.1 (nested-allocation
example of the spec). -/
def rowC2small : NetworkRange :=
  { network := "1.0.0.0/24"
    min_ip := 16777216
    max_ip := 16777472
    asn := "AS1"
    organization := "Small"
    country := "SS" }

/-- Demo dataset with the wide range listed first. -/
def rowsC2 : List NetworkRange := [rowC2big, rowC2small]

/-- The dataset row of the spec example: 1.0.0.0/24, Cloudflare. -/
def rowC4 : NetworkRange :=
  { network := "1.0.0.0/24"
    min_ip := 16777216
    max_ip := 16777471
    asn := "AS13335"
    organization := "Cloudflare"
    country := "US" }

/-- Demo range for the tie-break analysis: bounds 0 to 255, size 255. -/
def rowC5A : NetworkRange :=
  { network := "netA"
    min_ip := 0
    max_ip := 255
    asn := "AS1"
    organization := "OrgA"
    country := "AA" }

/-- Demo range for the tie-break analysis: bounds 100 to 355, also size 255,
overlapping `rowC5A` at address 200. -/
def rowC5B : NetworkRange :=
  { network := "netB"
    min_ip := 100
    max_ip := 355
    asn := "AS2"
    organization := "OrgB"
    country := "BB" }

/-- Fresh cache with the `maxsize` used in the source (10000). -/
def cacheC6 : LruCache := { maxsize := 10000, entries := [] }

/-! Helper lemmas (not claim theorems). -/

/-- Characters with equal code points are equal. -/
theorem char_toNat_inj {a b : Char} (h : a.toNat = b.toNat) : a = b := by
  rw [← Char.ofNat_toNat a, ← Char.ofNat_toNat b, h]

/-- String concatenation concatenates the underlying character lists. -/
theorem string_data_append (a b : String) : (a ++ b).data = a.data ++ b.data := rfl

/-- The fuel of `natDigitsAux` is irrelevant once it exceeds the input. -/
theorem natDigitsAux_congr :
    ∀ f1 f2 m, m < f1 → m < f2 → natDigitsAux f1 m = natDigitsAux f2 m := by
  intro f1
  induction f1 with
  | zero => intro f2 m h1 _; omega
  | succ f ih =>
    intro f2 m h1 h2
    cases f2 with
    | zero => omega
    | succ g =>
      rw [natDigitsAux, natDigitsAux]
      by_cases hm : m < 10
      · simp [hm]
      · simp only [hm, if_false]
        rw [ih g (m / 10) (by omega) (by omega)]

/-- Single digit, single character. -/
theorem natDigits_lt10 {n : Nat} (h : n < 10) :
    natDigits n = [Char.ofNat (48 + n)] := by
  rw [natDigits, natDigitsAux]
  simp [h]

/-- At least two digits: last digit appended to the digits of the quotient. -/
theorem natDigits_ge10 {n : Nat} (h : ¬ n < 10) :
    natDigits n = natDigits (n / 10) ++ [Char.ofNat (48 + n % 10)] := by
  rw [natDigits, natDigits, natDigitsAux]
  simp only [h, if_false]
  rw [natDigitsAux_congr n (n / 10 + 1) (n / 10) (by omega) (by omega)]

/-- Splitting never returns the empty list of parts. -/
theorem splitOnChar_ne_nil (sep : Char) (l : List Char) :
    splitOnChar sep l ≠ [] := by
  induction l with
  | nil => simp [splitOnChar]
  | cons c cs ih =>
    rw [splitOnChar]
    by_cases h : c = sep
    · simp [h]
    · simp only [h, if_false]
      cases hs : splitOnChar sep cs with
      | nil => simp
      | cons p ps => simp

/-- Joining the parts of a split restores the original list. -/
theorem joinChar_splitOnChar (sep : Char) (l : List Char) :
    joinChar sep (splitOnChar sep l) = l := by
  induction l with
  | nil => rfl
  | cons c cs ih =>
    rw [splitOnChar]
    by_cases h : c = sep
    · simp only [h, if_true]
      cases hs : splitOnChar sep cs with
      | nil => exact absurd hs (splitOnChar_ne_nil sep cs)
      | cons p ps =>
        rw [hs] at ih
        rw [joinChar]
        simp only [List.nil_append]
        rw [ih]
    · simp only [h, if_false]
      cases hs : splitOnChar sep cs with
      | nil => exact absurd hs (splitOnChar_ne_nil sep cs)
      | cons p ps =>
        rw [hs] at ih
        cases ps with
        | nil =>
          rw [joinChar] at ih ⊢
          rw [ih]
        | cons q qs =>
          rw [joinChar] at ih ⊢
          rw [List.cons_append, ih]

/-- A separator-free list splits into exactly itself. -/
theorem splitOnChar_of_not_mem {sep : Char} {l : List Char} (h : sep ∉ l) :
    splitOnChar sep l = [l] := by
  induction l with
  | nil => rfl
  | cons c cs ih =>
    rw [splitOnChar]
    have hc : ¬ c = sep := fun hEq => h (hEq ▸ List.mem_cons_self c cs)
    simp only [hc, if_false]
    rw [ih (fun hm => h (List.mem_cons_of_mem c hm))]

/-- Splitting a list that starts with a separator-free part followed by a
separator peels off that part. -/
theorem splitOnChar_append {sep : Char} {p : List Char} (rest : List Char)
    (hp : sep ∉ p) :
    splitOnChar sep (p ++ sep :: rest) = p :: splitOnChar sep rest := by
  induction p with
  | nil =>
    rw [List.nil_append, splitOnChar]
    simp
  | cons a q ih =>
    have ha : ¬ a = sep := fun hEq => hp (hEq ▸ List.mem_cons_self a q)
    rw [List.cons_append, splitOnChar]
    simp only [ha, if_false]
    rw [ih (fun hm => hp (List.mem_cons_of_mem a hm))]

/-- An accepted octet is at most 255. -/
theorem parseOctet_le {l : List Char} {v : Nat} (h : parseOctet l = Except.ok v) :
    v ≤ 255 := by
  unfold parseOctet at h
  split_ifs at h with h1 h2 h3 h4 h5
  all_goals cases h
  omega

/-- An accepted octet string is the canonical decimal rendering of its value:
the digits of `digitsVal l` are exactly `l`.  This is the heart of the
round-trip property: CPython rejects leading zeros, so every accepted octet is
already canonical. -/
theorem parseOctet_canonical {l : List Char} {v : Nat}
    (h : parseOctet l = Except.ok v) : natDigits v = l := by
  unfold parseOctet at h
  split_ifs at h with h1 h2 h3 h4 h5
  all_goals cases h
  simp only [Bool.not_eq_true, Bool.and_eq_true, bne_iff_ne, beq_iff_eq,
    Bool.not_eq_true] at h4
  have hall : ∀ x ∈ l, isDigitChar x = true := by
    cases hb : l.all isDigitChar with
    | false => rw [hb] at h2; simp at h2
    | true => exact List.all_eq_true.mp hb
  match l with
  | [] => exact absurd rfl h1
  | [a] =>
    have ha := hall a (List.mem_cons_self a [])
    simp only [isDigitChar, Bool.and_eq_true, decide_eq_true_eq] at ha
    have hval : digitsVal [a] = a.toNat - 48 := by
      simp [digitsVal]
    rw [hval, natDigits_lt10 (by omega)]
    have : 48 + (a.toNat - 48) = a.toNat := by omega
    rw [this, Char.ofNat_toNat]
  | [a, b] =>
    have ha := hall a (by simp)
    have hb := hall b (by simp)
    simp only [isDigitChar, Bool.and_eq_true, decide_eq_true_eq] at ha hb
    have hane : a ≠ '0' := by
      intro hEq
      exact h4 ⟨by simp [hEq], by simp⟩
    have h0 : Char.toNat '0' = 48 := rfl
    have hA : 49 ≤ a.toNat := by
      rcases Nat.lt_or_ge a.toNat 49 with hlt | hge
      · exact absurd (char_toNat_inj (by omega)) hane
      · exact hge
    have hval : digitsVal [a, b] = 10 * (a.toNat - 48) + (b.toNat - 48) := by
      simp [digitsVal]
    rw [hval]
    rw [natDigits_ge10 (by omega)]
    rw [natDigits_lt10 (by omega)]
    have e1 : 48 + (10 * (a.toNat - 48) + (b.toNat - 48)) / 10 = a.toNat := by omega
    have e2 : 48 + (10 * (a.toNat - 48) + (b.toNat - 48)) % 10 = b.toNat := by omega
    rw [e1, e2, Char.ofNat_toNat, Char.ofNat_toNat]
    rfl
  | [a, b, c] =>
    have ha := hall a (by simp)
    have hb := hall b (by simp)
    have hc := hall c (by simp)
    simp only [isDigitChar, Bool.and_eq_true, decide_eq_true_eq] at ha hb hc
    have hane : a ≠ '0' := by
      intro hEq
      exact h4 ⟨by simp [hEq], by simp⟩
    have h0 : Char.toNat '0' = 48 := rfl
    have hA : 49 ≤ a.toNat := by
      rcases Nat.lt_or_ge a.toNat 49 with hlt | hge
      · exact absurd (char_toNat_inj (by omega)) hane
      · exact hge
    have hval : digitsVal [a, b, c] =
        100 * (a.toNat - 48) + 10 * (b.toNat - 48) + (c.toNat - 48) := by
      simp [digitsVal]
      omega
    rw [hval]
    rw [natDigits_ge10 (by omega)]
    rw [natDigits_ge10 (by omega)]
    rw [natDigits_lt10 (by omega)]
    have e1 : 48 + (100 * (a.toNat - 48) + 10 * (b.toNat - 48) + (c.toNat - 48)) / 10 / 10
        = a.toNat := by omega
    have e2 : 48 + (100 * (a.toNat - 48) + 10 * (b.toNat - 48) + (c.toNat - 48)) / 10 % 10
        = b.toNat := by omega
    have e3 : 48 + (100 * (a.toNat - 48) + 10 * (b.toNat - 48) + (c.toNat - 48)) % 10
        = c.toNat := by omega
    rw [e1, e2, e3, Char.ofNat_toNat, Char.ofNat_toNat, Char.ofNat_toNat]
    rfl
  | a :: b :: c :: d :: t =>
    exfalso
    simp only [List.length_cons] at h3
    omega

/-- An empty query answer means the WHERE clause filtered everything out. -/
theorem orderBySizeHead_eq_none {l : List NetworkRange}
    (h : orderBySizeHead l = none) : l = [] := by
  cases l with
  | nil => rfl
  | cons r rs =>
    rw [orderBySizeHead] at h
    cases hs : orderBySizeHead rs with
    | none => simp only [hs] at h; cases h
    | some m =>
      simp only [hs] at h
      by_cases hle : rangeSize r ≤ rangeSize m
      · rw [if_pos hle] at h; cases h
      · rw [if_neg hle] at h; cases h

/-- The selected row is one of the filtered rows. -/
theorem orderBySizeHead_mem {l : List NetworkRange} {m : NetworkRange}
    (h : orderBySizeHead l = some m) : m ∈ l := by
  induction l with
  | nil => cases h
  | cons r rs ih =>
    rw [orderBySizeHead] at h
    cases hs : orderBySizeHead rs with
    | none =>
      simp only [hs] at h
      cases h
      exact List.mem_cons_self _ _
    | some m2 =>
      simp only [hs] at h
      by_cases hle : rangeSize r ≤ rangeSize m2
      · rw [if_pos hle] at h
        cases h
        exact List.mem_cons_self _ _
      · rw [if_neg hle] at h
        cases h
        exact List.mem_cons_of_mem r (ih hs)

/-- The selected row has minimal `range_size` among the filtered rows. -/
theorem orderBySizeHead_min :
    ∀ (l : List NetworkRange) (m : NetworkRange), orderBySizeHead l = some m →
      ∀ r ∈ l, rangeSize m ≤ rangeSize r := by
  intro l
  induction l with
  | nil => intro m h; cases h
  | cons r rs ih =>
    intro m h
    rw [orderBySizeHead] at h
    cases hs : orderBySizeHead rs with
    | none =>
      simp only [hs] at h
      cases h
      have hnil := orderBySizeHead_eq_none hs
      subst hnil
      intro x hx
      rcases List.mem_cons.mp hx with hx | hx
      · rw [hx]
      · cases hx
    | some m2 =>
      simp only [hs] at h
      by_cases hle : rangeSize r ≤ rangeSize m2
      · rw [if_pos hle] at h
        cases h
        intro x hx
        rcases List.mem_cons.mp hx with hx | hx
        · rw [hx]
        · exact le_trans hle (ih m2 hs x hx)
      · rw [if_neg hle] at h
        cases h
        intro x hx
        rcases List.mem_cons.mp hx with hx | hx
        · rw [hx]; exact le_of_not_le hle
        · exact ih _ hs x hx

/-- The deterministic reading of the query always yields an admissible row of
the relational reading. -/
theorem orderBySizeHead_admissible {rows : List NetworkRange} {x : Nat}
    {m : NetworkRange} (h : orderBySizeHead (containing rows x) = some m) :
    admissibleResult rows x m :=
  ⟨orderBySizeHead_mem h, orderBySizeHead_min _ _ h⟩

/-- A key found by `List.lookup` is paired with its value in the list. -/
theorem lookup_mem {l : List (String × FindResult)} {k : String} {v : FindResult}
    (h : List.lookup k l = some v) : (k, v) ∈ l := by
  induction l with
  | nil => cases h
  | cons e t ih =>
    obtain ⟨k2, v2⟩ := e
    rw [List.lookup] at h
    cases hbeq : k == k2 with
    | true =>
      rw [hbeq] at h
      cases h
      have : k = k2 := eq_of_beq hbeq
      subst this
      exact List.mem_cons_self _ _
    | false =>
      rw [hbeq] at h
      exact List.mem_cons_of_mem _ (ih h)

/-- With no matching row the query returns nothing and `find_network`
falls back to the sentinel dictionary. -/
theorem find_network_no_match {rows : List NetworkRange} {s : String} {x : Nat}
    (hx : ip_to_int s = Except.ok x) (hmiss : containing rows x = []) :
    find_network rows s = Except.ok (some (sentinelRecord s x)) := by
  unfold find_network
  simp only [hx]
  rw [hmiss]
  rfl

/-! Claim theorems, witnesses and counterexamples. -/

/-- C7: for every valid dotted-quad IPv4 string, `ip_to_int` returns an
integer in the interval from 0 to 2 to the 32 minus 1, and converting that
integer back to dotted-quad form (`int_to_ip`) yields the original canonical
string. -/
theorem C7_normalize_roundtrip (s : String) (n : Nat)
    (h : ip_to_int s = Except.ok n) :
    n ≤ 4294967295 ∧ int_to_ip n = s := by
  unfold ip_to_int at h
  split_ifs at h with h1 h2
  rcases hsp : splitOnChar '.' s.data with _ | ⟨o1, _ | ⟨o2, _ | ⟨o3, _ | ⟨o4, _ | ⟨o5, rest⟩⟩⟩⟩⟩
  · simp [hsp] at h
  · simp [hsp] at h
  · simp [hsp] at h
  · simp [hsp] at h
  · simp only [hsp] at h
    rcases hA : parseOctet o1 with eA | a
    · simp [hA] at h
    rcases hB : parseOctet o2 with eB | b
    · simp [hA, hB] at h
    rcases hC : parseOctet o3 with eC | c
    · simp [hA, hB, hC] at h
    rcases hD : parseOctet o4 with eD | d
    · simp [hA, hB, hC, hD] at h
    simp only [hA, hB, hC, hD] at h
    cases h
    have va := parseOctet_le hA
    have vb := parseOctet_le hB
    have vc := parseOctet_le hC
    have vd := parseOctet_le hD
    refine ⟨by omega, ?_⟩
    unfold int_to_ip
    have e1 : (a * 16777216 + b * 65536 + c * 256 + d) / 16777216 % 256 = a := by
      omega
    have e2 : (a * 16777216 + b * 65536 + c * 256 + d) / 65536 % 256 = b := by
      omega
    have e3 : (a * 16777216 + b * 65536 + c * 256 + d) / 256 % 256 = c := by
      omega
    have e4 : (a * 16777216 + b * 65536 + c * 256 + d) % 256 = d := by
      omega
    rw [e1, e2, e3, e4, parseOctet_canonical hA, parseOctet_canonical hB,
      parseOctet_canonical hC, parseOctet_canonical hD]
    have hj : joinChar '.' [o1, o2, o3, o4] = s.data := by
      have hid := joinChar_splitOnChar '.' s.data
      rw [hsp] at hid
      exact hid
    rw [hj]
  · simp [hsp] at h

/-- C7 witness: the round trip at the concrete address 1.2.3.4. -/
theorem C7_witness :
    ip_to_int "1.2.3.4" = Except.ok 16909060 ∧
    16909060 ≤ 4294967295 ∧ int_to_ip 16909060 = "1.2.3.4" :=
  ⟨by rfl, C7_normalize_roundtrip "1.2.3.4" 16909060 (by rfl)⟩

example : ip_to_int "1.2.3.4" = Except.ok 16909060 := by rfl
example : ip_to_int "999.1.1.1" = Except.error "Invalid IP address: 999.1.1.1" := by rfl
example : ip_to_int "1.2.3" = Except.error "Invalid IP address: 1.2.3" := by rfl
example : ip_to_int "" = Except.error "Invalid IP address: " := by rfl
example : ip_to_int "abc.def.gh.i" = Except.error "Invalid IP address: abc.def.gh.i" := by rfl
example : ip_to_int "01.2.3.4" = Except.error "Invalid IP address: 01.2.3.4" := by rfl
example : ip_to_int "0.0.0.0" = Except.ok 0 := by rfl
example : int_to_ip 16909060 = "1.2.3.4" := by rfl
example : natToDec 16777217 = "16777217" := by rfl

/-- Splitting a five-part separated concatenation recovers the five parts. -/
theorem splitOnChar_five {sep : Char} {A1 A2 A3 A4 A5 : List Char}
    (n1 : sep ∉ A1) (n2 : sep ∉ A2) (n3 : sep ∉ A3) (n4 : sep ∉ A4)
    (n5 : sep ∉ A5) :
    splitOnChar sep (A1 ++ sep :: (A2 ++ sep :: (A3 ++ sep :: (A4 ++ sep :: A5)))) =
      [A1, A2, A3, A4, A5] := by
  rw [splitOnChar_append _ n1, splitOnChar_append _ n2, splitOnChar_append _ n3,
    splitOnChar_append _ n4, splitOnChar_of_not_mem n5]

/-- C1 counterexample: the claim says a malformed address makes the lookup
raise `InvalidAddressError`; at the four malformed inputs named by the spec,
`find_network` instead returns normally with Python `None` (the `ValueError`
raised by `ip_to_int` is caught on lines 65-68 of NetworkFinder.py). -/
theorem C1_counterexample :
    find_network [] "999.1.1.1" = Except.ok none ∧
    find_network [] "1.2.3" = Except.ok none ∧
    find_network [] "abc.def.gh.i" = Except.ok none ∧
    find_network [] "" = Except.ok none :=
  ⟨rfl, rfl, rfl, rfl⟩

/-- C1 amended: for every malformed address string — every string on which
`ip_to_int` raises `ValueError` — `find_network` catches the error and
returns `None` rather than raising or returning a populated result. -/
theorem C1_returns_none_on_malformed (rows : List NetworkRange) (s e : String)
    (h : ip_to_int s = Except.error e) :
    find_network rows s = Except.ok none := by
  unfold find_network
  simp only [h]

/-- C1 witness: the amended behaviour at the concrete malformed input
1.2.3. -/
theorem C1_witness :
    ip_to_int "1.2.3" = Except.error "Invalid IP address: 1.2.3" ∧
    find_network [] "1.2.3" = Except.ok none :=
  ⟨by rfl,
   C1_returns_none_on_malformed [] "1.2.3" "Invalid IP address: 1.2.3" (by rfl)⟩

/-- C2: for a valid address contained in several loaded ranges, when one
containing range has strictly smallest `range_size`, `find_network` returns
that range (the most specific block). -/
theorem C2_narrowest_match (rows : List NetworkRange) (s : String) (x : Nat)
    (r : NetworkRange) (hx : ip_to_int s = Except.ok x)
    (hr : r ∈ containing rows x) (hmin : strictlyNarrowest rows x r) :
    find_network rows s = Except.ok (some (toRecord r)) := by
  unfold find_network
  simp only [hx]
  cases hm : orderBySizeHead (containing rows x) with
  | none =>
    rw [orderBySizeHead_eq_none hm] at hr
    cases hr
  | some m =>
    simp only [hm]
    have hmem := orderBySizeHead_mem hm
    have hle := orderBySizeHead_min _ _ hm r hr
    have hEq : m = r := by
      by_contra hne
      have := hmin m hmem hne
      omega
    rw [hEq]

/-- C2 witness: address 1.0.0.1 inside two nested ranges of sizes 256 and
65536 (the wide one listed first); the lookup returns the size-256 range. -/
theorem C2_witness :
    ip_to_int "1.0.0.1" = Except.ok 16777217 ∧
    rowC2small ∈ containing rowsC2 16777217 ∧
    strictlyNarrowest rowsC2 16777217 rowC2small ∧
    find_network rowsC2 "1.0.0.1" = Except.ok (some (toRecord rowC2small)) :=
  ⟨by rfl, by decide, by decide,
   C2_narrowest_match rowsC2 "1.0.0.1" 16777217 rowC2small (by rfl) (by decide)
     (by decide)⟩

/-- C3: for a valid address contained in no loaded range, `find_network`
returns — it does not raise — the unknown sentinel record, whose asn is
00000000, organization is unknown, country is XX, and whose bounds are both
the decimal rendering of the queried address integer. -/
theorem C3_unknown_sentinel (rows : List NetworkRange) (s : String) (x : Nat)
    (hx : ip_to_int s = Except.ok x) (hmiss : containing rows x = []) :
    find_network rows s = Except.ok (some (sentinelRecord s x)) ∧
    (sentinelRecord s x).asn = "00000000" ∧
    (sentinelRecord s x).organization = "unknown" ∧
    (sentinelRecord s x).country = "XX" ∧
    (sentinelRecord s x).min_ip = natToDec x ∧
    (sentinelRecord s x).max_ip = natToDec x :=
  ⟨find_network_no_match hx hmiss, rfl, rfl, rfl, rfl, rfl⟩

/-- C3 witness: the sentinel at the concrete address 9.9.9.9 over the empty
dataset. -/
theorem C3_witness :
    ip_to_int "9.9.9.9" = Except.ok 151587081 ∧
    containing [] 151587081 = [] ∧
    (find_network [] "9.9.9.9" = Except.ok (some (sentinelRecord "9.9.9.9" 151587081)) ∧
     (sentinelRecord "9.9.9.9" 151587081).asn = "00000000" ∧
     (sentinelRecord "9.9.9.9" 151587081).organization = "unknown" ∧
     (sentinelRecord "9.9.9.9" 151587081).country = "XX" ∧
     (sentinelRecord "9.9.9.9" 151587081).min_ip = natToDec 151587081 ∧
     (sentinelRecord "9.9.9.9" 151587081).max_ip = natToDec 151587081) :=
  ⟨by rfl, by rfl, C3_unknown_sentinel [] "9.9.9.9" 151587081 (by rfl) (by rfl)⟩

/-- C4: for a valid address contained in exactly one loaded range,
`find_network` returns that row's metadata unchanged: the six fields of the
result are the row's values (the integer bounds rendered with `str()`). -/
theorem C4_single_match (rows : List NetworkRange) (s : String) (x : Nat)
    (r : NetworkRange) (hx : ip_to_int s = Except.ok x)
    (hone : containing rows x = [r]) :
    find_network rows s = Except.ok (some
      { network := r.network
        min_ip := intToDecStr r.min_ip
        max_ip := intToDecStr r.max_ip
        asn := r.asn
        organization := r.organization
        country := r.country }) := by
  unfold find_network
  simp only [hx, hone]
  rfl

/-- C4 witness: the spec example — dataset row 1.0.0.0/24 (bounds 16777216
to 16777471, AS13335, Cloudflare, US) and the lookup of 1.0.0.1. -/
theorem C4_witness :
    ip_to_int "1.0.0.1" = Except.ok 16777217 ∧
    containing [rowC4] 16777217 = [rowC4] ∧
    find_network [rowC4] "1.0.0.1" = Except.ok (some
      { network := "1.0.0.0/24"
        min_ip := "16777216"
        max_ip := "16777471"
        asn := "AS13335"
        organization := "Cloudflare"
        country := "US" }) :=
  ⟨by rfl, by rfl,
   C4_single_match [rowC4] "1.0.0.1" 16777217 rowC4 (by rfl) (by rfl)⟩

/-- C5 counterexample: address 200 lies in the two distinct ranges `rowC5A`
and `rowC5B`, both of `range_size` 255, and both are admissible outputs of
the query `ORDER BY range_size LIMIT 1` — the code orders by `range_size`
alone and fixes no stable secondary order, so the claimed deterministic
tie-break does not exist in the code. -/
theorem C5_counterexample :
    admissibleResult [rowC5A, rowC5B] 200 rowC5A ∧
    admissibleResult [rowC5A, rowC5B] 200 rowC5B ∧
    rowC5A ≠ rowC5B := by
  refine ⟨by decide, by decide, by decide⟩

/-- C5 amended: the query pins down only the size of the winner — any two
admissible results of `ORDER BY range_size LIMIT 1` have equal (minimal)
`range_size`; which of several equal-size containing ranges is returned is
not determined by the code. -/
theorem C5_amended_tie_size (rows : List NetworkRange) (x : Nat)
    (r1 r2 : NetworkRange) (h1 : admissibleResult rows x r1)
    (h2 : admissibleResult rows x r2) : rangeSize r1 = rangeSize r2 :=
  le_antisymm (h1.2 r2 h2.1) (h2.2 r1 h1.1)

/-- C5 witness: the amended statement at the concrete overlapping pair. -/
theorem C5_witness :
    admissibleResult [rowC5A, rowC5B] 200 rowC5A ∧
    admissibleResult [rowC5A, rowC5B] 200 rowC5B ∧
    rangeSize rowC5A = rangeSize rowC5B :=
  ⟨by decide, by decide,
   C5_amended_tie_size [rowC5A, rowC5B] 200 rowC5A rowC5B (by decide) (by decide)⟩

/-- C6: over a consistent cache state, a cached lookup returns exactly what
the uncached `find_network` returns, and two consecutive cached calls with
the same literal string return identical results. -/
theorem C6_cache_transparent (rows : List NetworkRange) (cache : LruCache)
    (s : String) (hcons : cacheConsistent rows cache) :
    (find_network_cached rows cache s).1 = find_network rows s ∧
    (find_network_cached rows (find_network_cached rows cache s).2 s).1 =
      (find_network_cached rows cache s).1 := by
  unfold find_network_cached
  cases hl : List.lookup s cache.entries with
  | none =>
    simp only [hl]
    refine ⟨?_, ?_⟩
    · trivial
    cases hm : cache.maxsize with
    | zero => simp [hm, List.take]
    | succ k => simp [hm, List.take, List.lookup]
  | some v =>
    have hv : v = find_network rows s := hcons (s, v) (lookup_mem hl)
    simp only [hl]
    exact ⟨hv, by simp [List.lookup]⟩

/-- C6 witness: consecutive cached lookups of 1.1.1.1 over a fresh cache and
the empty dataset. -/
theorem C6_witness :
    cacheConsistent [] cacheC6 ∧
    ((find_network_cached [] cacheC6 "1.1.1.1").1 = find_network [] "1.1.1.1" ∧
     (find_network_cached [] (find_network_cached [] cacheC6 "1.1.1.1").2 "1.1.1.1").1 =
       (find_network_cached [] cacheC6 "1.1.1.1").1) :=
  ⟨by simp [cacheConsistent, cacheC6],
   C6_cache_transparent [] cacheC6 "1.1.1.1" (by simp [cacheConsistent, cacheC6])⟩

/-- C8: constructing the component with a dataset path that does not exist
fails at construction time with the file-not-found error, for every candidate
row list — there is no degraded construction without the dataset. -/
theorem C8_missing_file (existingPaths : List String) (p : String)
    (rows : List NetworkRange) (h : p ∉ existingPaths) :
    networkFinderInit existingPaths p rows =
      Except.error ("CSV file not found: " ++ p) := by
  unfold networkFinderInit
  rw [if_neg h]

/-- C8 witness: the default dataset path over an empty filesystem. -/
theorem C8_witness :
    "data/networks/networks_converted.csv" ∉ ([] : List String) ∧
    networkFinderInit [] "data/networks/networks_converted.csv" [] =
      Except.error "CSV file not found: data/networks/networks_converted.csv" :=
  ⟨by simp,
   C8_missing_file [] "data/networks/networks_converted.csv" [] (by simp)⟩

/-- C9: when `find_network` produced a result record, `find_network_info`
returns the deterministic rendering with the IP, Network, ASN, Organization
and Country fields on five separate lines, in that order (splitting the
output on the newline character yields exactly those five lines). -/
theorem C9_format_lines (rows : List NetworkRange) (s : String)
    (res : ResultRecord) (hfind : find_network rows s = Except.ok (some res))
    (hs : Char.ofNat 10 ∉ s.data) (hn : Char.ofNat 10 ∉ res.network.data)
    (ha : Char.ofNat 10 ∉ res.asn.data)
    (ho : Char.ofNat 10 ∉ res.organization.data)
    (hc : Char.ofNat 10 ∉ res.country.data) :
    find_network_info rows s = Except.ok (some
      ("IP: " ++ s ++ "\n" ++ "Network: " ++ res.network ++ "\n" ++
       "ASN: " ++ res.asn ++ "\n" ++ "Organization: " ++ res.organization ++
       "\n" ++ "Country: " ++ res.country)) ∧
    splitOnChar (Char.ofNat 10)
      ("IP: " ++ s ++ "\n" ++ "Network: " ++ res.network ++ "\n" ++
       "ASN: " ++ res.asn ++ "\n" ++ "Organization: " ++ res.organization ++
       "\n" ++ "Country: " ++ res.country).data =
      [("IP: " ++ s).data, ("Network: " ++ res.network).data,
       ("ASN: " ++ res.asn).data, ("Organization: " ++ res.organization).data,
       ("Country: " ++ res.country).data] := by
  constructor
  · unfold find_network_info
    simp only [hfind]
  · have hd : ("IP: " ++ s ++ "\n" ++ "Network: " ++ res.network ++ "\n" ++
        "ASN: " ++ res.asn ++ "\n" ++ "Organization: " ++ res.organization ++
        "\n" ++ "Country: " ++ res.country).data =
        ("IP: " ++ s).data ++ Char.ofNat 10 ::
          (("Network: " ++ res.network).data ++ Char.ofNat 10 ::
            (("ASN: " ++ res.asn).data ++ Char.ofNat 10 ::
              (("Organization: " ++ res.organization).data ++ Char.ofNat 10 ::
                ("Country: " ++ res.country).data))) := by
      simp [string_data_append, List.append_assoc]
    rw [hd]
    refine splitOnChar_five ?_ ?_ ?_ ?_ ?_
    · intro hmem
      exact hs (by simpa [string_data_append] using hmem)
    · intro hmem
      exact hn (by simpa [string_data_append] using hmem)
    · intro hmem
      exact ha (by simpa [string_data_append] using hmem)
    · intro hmem
      exact ho (by simpa [string_data_append] using hmem)
    · intro hmem
      exact hc (by simpa [string_data_append] using hmem)

/-- C9 witness: formatting the Cloudflare record for 1.0.0.1. -/
theorem C9_witness :
    find_network [rowC4] "1.0.0.1" = Except.ok (some (toRecord rowC4)) ∧
    Char.ofNat 10 ∉ "1.0.0.1".data ∧
    Char.ofNat 10 ∉ (toRecord rowC4).network.data ∧
    Char.ofNat 10 ∉ (toRecord rowC4).asn.data ∧
    Char.ofNat 10 ∉ (toRecord rowC4).organization.data ∧
    Char.ofNat 10 ∉ (toRecord rowC4).country.data ∧
    (find_network_info [rowC4] "1.0.0.1" = Except.ok (some
      ("IP: " ++ "1.0.0.1" ++ "\n" ++ "Network: " ++ (toRecord rowC4).network ++
       "\n" ++ "ASN: " ++ (toRecord rowC4).asn ++ "\n" ++ "Organization: " ++
       (toRecord rowC4).organization ++ "\n" ++ "Country: " ++
       (toRecord rowC4).country)) ∧
     splitOnChar (Char.ofNat 10)
      ("IP: " ++ "1.0.0.1" ++ "\n" ++ "Network: " ++ (toRecord rowC4).network ++
       "\n" ++ "ASN: " ++ (toRecord rowC4).asn ++ "\n" ++ "Organization: " ++
       (toRecord rowC4).organization ++ "\n" ++ "Country: " ++
       (toRecord rowC4).country).data =
      [("IP: " ++ "1.0.0.1").data, ("Network: " ++ (toRecord rowC4).network).data,
       ("ASN: " ++ (toRecord rowC4).asn).data,
       ("Organization: " ++ (toRecord rowC4).organization).data,
       ("Country: " ++ (toRecord rowC4).country).data]) :=
  ⟨by rfl, by decide, by decide, by decide, by decide, by decide,
   C9_format_lines [rowC4] "1.0.0.1" (toRecord rowC4) (by rfl) (by decide)
     (by decide) (by decide) (by decide) (by decide)⟩

/-- C10: when no loaded range contains a valid queried address, the returned
sentinel has the literal input string as its `network` field and the
decimal-string renderings (string values, not integers) of the queried
address integer as its `min_ip` and `max_ip` fields. -/
theorem C10_sentinel_fields (rows : List NetworkRange) (s : String) (x : Nat)
    (hx : ip_to_int s = Except.ok x) (hmiss : containing rows x = []) :
    find_network rows s = Except.ok (some
      { network := s
        min_ip := natToDec x
        max_ip := natToDec x
        asn := "00000000"
        organization := "unknown"
        country := "XX" }) :=
  find_network_no_match hx hmiss

/-- C10 witness: the sentinel fields at the concrete address 8.8.8.8 over
the empty dataset. -/
theorem C10_witness :
    ip_to_int "8.8.8.8" = Except.ok 134744072 ∧
    containing [] 134744072 = [] ∧
    find_network [] "8.8.8.8" = Except.ok (some
      { network := "8.8.8.8"
        min_ip := "134744072"
        max_ip := "134744072"
        asn := "00000000"
        organization := "unknown"
        country := "XX" }) :=
  ⟨by rfl, by rfl,
   C10_sentinel_fields [] "8.8.8.8" 134744072 (by rfl) (by rfl)⟩
